import Mathlib

/-!
Shallow embedding of `fence/resources/google/access_utils.py` and proofs of
the specification claims about it.

External collaborators (the cirrus cloud-provider library, the Flask logger,
and the SQLAlchemy session over the transactional store) are embedded by
passing the *result* of each external call as an explicit argument: a call
that may raise a Python exception is an `Except PyErr _` value, and the
store is a list of rows.  Each embedded function mirrors the control flow of
its Python source line by line.
-/

/-- Python exception values reachable in the embedded code.  Every variant
models a subclass of Python `Exception` (both `GoogleAPIError` and
`NotImplementedError` derive from `Exception`), so a bare
`except Exception` handler in the source catches all of them. -/
inductive PyErr where
  | googleAPIError (msg : String)
  | notImplementedError (msg : String)
  | otherException (msg : String)
  deriving DecidableEq, Repr

/-- From the external cirrus contract (`cirrus.google_cloud`): the reported
type of a compute-engine default service account.  The concrete string is a
stand-in for the library constant; the claims depend only on the constants
being distinct. -/
def COMPUTE_ENGINE_DEFAULT_SERVICE_ACCOUNT : String := "compute_engine_default"

/-- From the external cirrus contract: the reported type of a user-managed
service account. -/
def USER_MANAGED_SERVICE_ACCOUNT : String := "user_managed"

/-- From the external cirrus contract: a service-account type outside the
allow-list (used only in concrete instances). -/
def GOOGLE_API_SERVICE_ACCOUNT : String := "google_api"

/-- `ALLOWED_SERVICE_ACCOUNT_TYPES` from `access_utils.py` lines 19-22. -/
def ALLOWED_SERVICE_ACCOUNT_TYPES : List String :=
  [COMPUTE_ENGINE_DEFAULT_SERVICE_ACCOUNT, USER_MANAGED_SERVICE_ACCOUNT]

/-- A member of a Google project's IAM policy, per the external provider
contract: `getProjectMembership() -> list of (memberType, memberId)`. -/
structure GooglePolicyMember where
  member_type : String
  email_id : String
  deriving DecidableEq, Repr

/-- Cirrus constant `GooglePolicyMember.SERVICE_ACCOUNT`. -/
def GooglePolicyMember.SERVICE_ACCOUNT : String := "serviceAccount"

/-- Cirrus constant `GooglePolicyMember.USER`. -/
def GooglePolicyMember.USER : String := "user"

/-- Cirrus constant `GooglePolicyMember.GROUP` (a member type outside the
valid-membership allow-list). -/
def GooglePolicyMember.GROUP : String := "group"

/-- Embeds `google_project_has_parent_org` (`access_utils.py` lines 46-67).
The whole provider interaction (`GoogleCloudManager` context entry plus
`prj.has_parent_organization()`) sits inside `try`, so it is embedded as one
`Except PyErr Bool` argument; the `except Exception` branch logs (a no-op in
the embedding, logging being an out-of-scope collaborator) and returns
`False`. -/
def google_project_has_parent_org (hasParentOrganization : Except PyErr Bool) :
    Bool :=
  match hasParentOrganization with
  | .ok b => b
  | .error _ => false

/-- The member loop inside `google_project_has_valid_membership`
(`access_utils.py` lines 85-90): returns `False` at the first member whose
type is neither `SERVICE_ACCOUNT` nor `USER`, and `True` once the list is
exhausted. -/
def membership_loop : List GooglePolicyMember → Bool
  | [] => true
  | member :: rest =>
      if !(member.member_type == GooglePolicyMember.SERVICE_ACCOUNT ||
           member.member_type == GooglePolicyMember.USER) then
        false
      else
        membership_loop rest

/-- Embeds `google_project_has_valid_membership` (`access_utils.py` lines
70-97).  The provider interaction (context entry plus
`prj.get_project_membership()`) is the `Except` argument; the
`except Exception` branch returns `False`. -/
def google_project_has_valid_membership
    (get_project_membership : Except PyErr (List GooglePolicyMember)) : Bool :=
  match get_project_membership with
  | .ok members => membership_loop members
  | .error _ => false

/-- Embeds `is_valid_service_account_type` (`access_utils.py` lines 100-124).
The provider interaction (context entry plus
`g_mgr.get_service_account_type(account_id)`) is the `Except` argument; on
success the reported type is tested for membership in
`ALLOWED_SERVICE_ACCOUNT_TYPES`; the `except Exception` branch returns
`False`. -/
def is_valid_service_account_type
    (get_service_account_type : Except PyErr String) : Bool :=
  match get_service_account_type with
  | .ok t => ALLOWED_SERVICE_ACCOUNT_TYPES.contains t
  | .error _ => false

/-- One entry of the `bindings` list of an IAM policy body, per the external
provider contract. -/
structure GooglePolicyBinding where
  role : String
  members : List String
  deriving DecidableEq, Repr

/-- The JSON body returned by `getServiceAccountPolicy`: per the provider
contract the body contains an *optional* `bindings` list (`none` embeds a
body without the `bindings` key). -/
structure PolicyJson where
  bindings : Option (List GooglePolicyBinding)
  deriving DecidableEq, Repr

/-- An HTTP response from a direct policy fetch: status code plus parsed
JSON body. -/
structure HttpResponse where
  status_code : Nat
  json : PolicyJson
  deriving DecidableEq, Repr

/-- Cirrus `GooglePolicy`: the claims only use its `roles` collection. -/
structure GooglePolicy where
  roles : List String
  deriving DecidableEq, Repr

/-- Cirrus `GooglePolicy.from_json`, restricted to what the source uses: it
is only called when the body has a `bindings` key, and builds one role per
binding entry. -/
def GooglePolicy.from_json (bindings : List GooglePolicyBinding) :
    GooglePolicy :=
  ⟨bindings.map (fun b => b.role)⟩

/-- The set of roles the source extracts from a policy body: empty when the
body has no `bindings` key (the source skips `GooglePolicy.from_json`
entirely in that case), otherwise the roles of the parsed policy. -/
def policyRoles (json_obj : PolicyJson) : List String :=
  match json_obj.bindings with
  | some bindings => (GooglePolicy.from_json bindings).roles
  | none => []

/-- Embeds `service_account_has_external_access` (`access_utils.py` lines
127-151).  There is no `try` in the source, so the result is
`Except PyErr Bool` and the non-200 branch raises `GoogleAPIError`.  The two
provider calls are embedded as the `response` (policy fetch) and `keys`
(`get_service_account_keys_info`) arguments; the embedded error message keeps
the interpolated account name and drops only the interpolated response body. -/
def service_account_has_external_access (service_account : String)
    (response : HttpResponse) (keys : List String) : Except PyErr Bool :=
  if response.status_code ≠ 200 then
    .error (.googleAPIError
      ("Unable to get IAM policy for service account " ++ service_account ++ "."))
  else
    match response.json.bindings with
    | some bindings =>
        if (GooglePolicy.from_json bindings).roles ≠ [] then .ok true
        else if keys ≠ [] then .ok true
        else .ok false
    | none =>
        if keys ≠ [] then .ok true
        else .ok false

/-- The message of every `NotImplementedError` raised in `access_utils.py`. -/
def NOT_AVAILABLE : String := "Functionality not yet available..."

/-- Embeds `get_service_account_email` (`access_utils.py` lines 229-232):
unconditionally raises `NotImplementedError`. -/
def get_service_account_email (account_id : String) : Except PyErr String :=
  .error (.notImplementedError NOT_AVAILABLE)

/-- Embeds `get_google_project_from_service_account_email`
(`access_utils.py` lines 236-238): unconditionally raises
`NotImplementedError`. -/
def get_google_project_from_service_account_email
    (service_account_email : String) : Except PyErr String :=
  .error (.notImplementedError NOT_AVAILABLE)

/-- Embeds `is_user_member_of_all_google_projects` (`access_utils.py` lines
158-175): unconditionally raises `NotImplementedError`. -/
def is_user_member_of_all_google_projects (user_id : Nat)
    (google_project_ids : List String) : Except PyErr Bool :=
  .error (.notImplementedError NOT_AVAILABLE)

/-- Embeds `can_user_manage_service_account` (`access_utils.py` lines 24-43):
calls `get_service_account_email`, then
`get_google_project_from_service_account_email`, then
`is_user_member_of_all_google_projects`; any raise propagates (there is no
`try` in the source). -/
def can_user_manage_service_account (user_id : Nat) (account_id : String) :
    Except PyErr Bool := do
  let service_account_email ← get_service_account_email account_id
  let service_account_project ←
    get_google_project_from_service_account_email service_account_email
  is_user_member_of_all_google_projects user_id [service_account_project]

/-- Modelled from the spec: the `AccessPrivilege` join entity of the data
model ((user, project, privilege level) with at most one row per
(user, project) pair); `fence.models` is not among the provided sources. -/
structure AccessPrivilege where
  user_id : Nat
  project_id : String
  privilege : List String
  deriving DecidableEq, Repr

/-- Embeds `do_all_users_have_access_to_project` (`access_utils.py` lines
178-199) over an explicit store `db` (the rows of the `AccessPrivilege`
table, in query order).

The source filter is
`AccessPrivilege.user_id == user_id and AccessPrivilege.project_id == project_auth_id`,
which applies Python's boolean `and` to two SQLAlchemy column expressions.
`bool` of the first `==` expression is SQLAlchemy's
`BinaryExpression.__bool__`, which compares the hashes of the two original
operands — the `user_id` column object and the integer — so it is `False`,
and `x and y` with falsy `x` evaluates to `x`.  The query therefore filters
on `user_id` alone; the `project_auth_id` condition is discarded, which this
embedding reproduces (`db.find?` tests only `user_id`). -/
def do_all_users_have_access_to_project (db : List AccessPrivilege)
    (user_ids : List Nat) (project_auth_id : String) : Bool :=
  match user_ids with
  | [] => true
  | user_id :: rest =>
      match db.find? (fun ap => ap.user_id == user_id) with
      | none => false
      | some _ => do_all_users_have_access_to_project db rest project_auth_id

/-- The bulk-access check as the specification states it (the second
definition of the refinement comparison for that claim): every listed user
has a direct `AccessPrivilege` row for the project with the given
authorization id. -/
def spec_all_users_have_access_to_project (db : List AccessPrivilege)
    (user_ids : List Nat) (project_auth_id : String) : Bool :=
  user_ids.all (fun user_id =>
    db.any (fun ap =>
      ap.user_id == user_id && ap.project_id == project_auth_id))

/-- One element of the provider's `getAllServiceAccounts()` list: the source
reads only its `name` field, via `account.get('name', '')`, so the field is
optional with default `""`. -/
structure ServiceAccountEntry where
  name : Option String
  deriving DecidableEq, Repr

/-- `account.get('name', '').split('/')[-1]` from `access_utils.py` line
216. -/
def service_account_id (account : ServiceAccountEntry) : String :=
  ((account.name.getD "").splitOn "/").getLastD ""

/-- The accumulation loop of `do_get_service_account_from_google_project`
(`access_utils.py` lines 215-223): for each enumerated account, fetch it by
id; raise `GoogleAPIError` on a non-200 status, otherwise append the JSON
body.  `get_service_account` maps an account id to the (status, body) pair
of its direct fetch. -/
def get_sa_loop (get_service_account : String → Nat × String) :
    List ServiceAccountEntry → List String → Except PyErr (List String)
  | [], service_account_jsons => .ok service_account_jsons
  | account :: rest, service_account_jsons =>
      let account_id := service_account_id account
      let response := get_service_account account_id
      if response.1 ≠ 200 then
        .error (.googleAPIError
          ("Unable to get service account " ++ account_id ++ "."))
      else
        get_sa_loop get_service_account rest
          (service_account_jsons ++ [response.2])

/-- Embeds `do_get_service_account_from_google_project` (`access_utils.py`
lines 202-225).  The enumeration `g_mgr.get_all_service_accounts()` is the
`service_accounts` argument and each direct fetch is `get_service_account`;
there is no `try`, so the non-200 `GoogleAPIError` propagates. -/
def do_get_service_account_from_google_project
    (service_accounts : List ServiceAccountEntry)
    (get_service_account : String → Nat × String) :
    Except PyErr (List String) :=
  get_sa_loop get_service_account service_accounts []

/-!  Theorems for the claims. -/

/-- C2: each of `google_project_has_parent_org`,
`google_project_has_valid_membership` and `is_valid_service_account_type`
returns `false` when its external cloud-provider call raises any exception;
none of them propagates the exception (each is a total `Bool`-valued
function, the `except Exception` handler having caught the raise). -/
theorem checks_fail_closed_on_exception (exc : PyErr) :
    google_project_has_parent_org (.error exc) = false ∧
    google_project_has_valid_membership (.error exc) = false ∧
    is_valid_service_account_type (.error exc) = false :=
  ⟨rfl, rfl, rfl⟩

/-- C9: on the empty list of user ids, `do_all_users_have_access_to_project`
returns `true` for every store and every project authorization id — the loop
body, and with it the store query, is never reached. -/
theorem do_all_users_empty_list (db : List AccessPrivilege)
    (project_auth_id : String) :
    do_all_users_have_access_to_project db [] project_auth_id = true :=
  rfl

/-- C10: when the membership enumeration succeeds with an empty member list,
`google_project_has_valid_membership` returns `true`. -/
theorem valid_membership_empty_members :
    google_project_has_valid_membership (.ok []) = true :=
  rfl

/-- C7: `can_user_manage_service_account` raises `NotImplementedError` for
every input (its first collaborator `get_service_account_email` raises, and
`is_user_member_of_all_google_projects` raises as well), so it never returns
a boolean default-allow or default-deny answer. -/
theorem can_user_manage_raises_not_implemented (user_id : Nat)
    (account_id : String) (google_project_ids : List String) :
    can_user_manage_service_account user_id account_id
        = .error (.notImplementedError NOT_AVAILABLE) ∧
    get_service_account_email account_id
        = .error (.notImplementedError NOT_AVAILABLE) ∧
    is_user_member_of_all_google_projects user_id google_project_ids
        = .error (.notImplementedError NOT_AVAILABLE) :=
  ⟨rfl, rfl, rfl⟩

/-- C1 failing input: with a store holding a single `AccessPrivilege` row
(user 1, project Q), `do_all_users_have_access_to_project [1] "P"` returns
`true` although user 1 has no row for project P — the discarded
`project_auth_id` condition makes the code diverge from the claim, which
the spec-following definition makes explicit. -/
theorem do_all_users_drops_project_condition :
    do_all_users_have_access_to_project
        [⟨1, "Q", ["read"]⟩] [1] "P" = true ∧
    spec_all_users_have_access_to_project
        [⟨1, "Q", ["read"]⟩] [1] "P" = false := by
  decide

/-- C6: when the provider type lookup succeeds,
`is_valid_service_account_type` returns `true` exactly when the reported
type is the compute-engine-default type or the user-managed type. -/
theorem valid_sa_type_iff (t : String) :
    is_valid_service_account_type (.ok t) = true ↔
      (t = COMPUTE_ENGINE_DEFAULT_SERVICE_ACCOUNT ∨
       t = USER_MANAGED_SERVICE_ACCOUNT) := by
  simp [is_valid_service_account_type, ALLOWED_SERVICE_ACCOUNT_TYPES,
    List.contains, List.elem_eq_mem]

/-- C6 witness: the user-managed type is accepted. -/
theorem valid_sa_type_iff_witness :
    is_valid_service_account_type (.ok USER_MANAGED_SERVICE_ACCOUNT) = true :=
  (valid_sa_type_iff USER_MANAGED_SERVICE_ACCOUNT).mpr (Or.inr rfl)

/-- C5: when the membership enumeration succeeds,
`google_project_has_valid_membership` returns `true` exactly when every
enumerated member's type is individual-user or service-account; any member
of another type makes it `false`. -/
theorem valid_membership_iff (members : List GooglePolicyMember) :
    google_project_has_valid_membership (.ok members) = true ↔
      ∀ m ∈ members,
        m.member_type = GooglePolicyMember.SERVICE_ACCOUNT ∨
        m.member_type = GooglePolicyMember.USER := by
  induction members with
  | nil => simp [google_project_has_valid_membership, membership_loop]
  | cons m rest ih =>
      simp only [google_project_has_valid_membership] at ih ⊢
      by_cases h :
          m.member_type = GooglePolicyMember.SERVICE_ACCOUNT ∨
          m.member_type = GooglePolicyMember.USER
      · simp only [membership_loop]
        rw [if_neg (by rcases h with h | h <;> simp [h])]
        simp only [ih, List.mem_cons]
        constructor
        · intro hr x hx
          rcases hx with hx | hx
          · subst hx; exact h
          · exact hr x hx
        · intro hall x hx
          exact hall x (Or.inr hx)
      · simp only [membership_loop]
        rw [if_pos (by simpa using h)]
        simp only [Bool.false_eq_true, false_iff]
        intro hc
        exact h (hc m (List.mem_cons_self m rest))

/-- C5 witness: a project whose only members are a user and a service
account passes the membership check. -/
theorem valid_membership_iff_witness :
    google_project_has_valid_membership
        (.ok [⟨GooglePolicyMember.USER, "someone"⟩,
              ⟨GooglePolicyMember.SERVICE_ACCOUNT, "sa"⟩]) = true :=
  (valid_membership_iff
      [⟨GooglePolicyMember.USER, "someone"⟩,
       ⟨GooglePolicyMember.SERVICE_ACCOUNT, "sa"⟩]).mpr (by decide)

/-- C3: whenever the policy fetch carries a status other than 200,
`service_account_has_external_access` evaluates to a raised
`GoogleAPIError` (never to a boolean). -/
theorem external_access_non_200_raises (service_account : String)
    (response : HttpResponse) (keys : List String)
    (h : response.status_code ≠ 200) :
    ∃ msg, service_account_has_external_access service_account response keys
        = .error (.googleAPIError msg) :=
  ⟨_, by rw [service_account_has_external_access, if_pos h]⟩

/-- C3 witness: a 500 response raises. -/
theorem external_access_non_200_raises_witness :
    ∃ msg, service_account_has_external_access "sa@proj" ⟨500, ⟨none⟩⟩ []
        = .error (.googleAPIError msg) :=
  external_access_non_200_raises "sa@proj" ⟨500, ⟨none⟩⟩ [] (by decide)

/-- C4: on a 200 policy fetch, `service_account_has_external_access`
returns the boolean OR of "the policy has a non-empty set of roles" (no
`bindings` section meaning no roles) and "the account has any key
material"; in particular it returns `true` exactly when one of the two
holds. -/
theorem external_access_200_result (service_account : String)
    (response : HttpResponse) (keys : List String)
    (h : response.status_code = 200) :
    service_account_has_external_access service_account response keys
      = .ok (!(policyRoles response.json).isEmpty || !keys.isEmpty) := by
  rw [service_account_has_external_access, if_neg (by simp [h])]
  unfold policyRoles
  cases hb : response.json.bindings with
  | none =>
      by_cases hk : keys = [] <;>
        simp [hk, List.isEmpty_iff]
  | some bindings =>
      by_cases hr : (GooglePolicy.from_json bindings).roles = [] <;>
        by_cases hk : keys = [] <;>
          simp [hr, hk, List.isEmpty_iff]

/-- C4 witness: with one role binding and no keys, the check returns
`true`. -/
theorem external_access_200_result_witness :
    service_account_has_external_access "sa@proj"
        ⟨200, ⟨some [⟨"roles/owner", ["user:someone"]⟩]⟩⟩ [] = .ok true :=
  external_access_200_result "sa@proj"
    ⟨200, ⟨some [⟨"roles/owner", ["user:someone"]⟩]⟩⟩ [] rfl

/-- Helper for C8: when every fetch along the list returns 200, the loop
appends one JSON body per account to the accumulator. -/
theorem get_sa_loop_all_ok (get_service_account : String → Nat × String)
    (accounts : List ServiceAccountEntry) (acc : List String)
    (h : ∀ a ∈ accounts, (get_service_account (service_account_id a)).1 = 200) :
    get_sa_loop get_service_account accounts acc
      = .ok (acc ++ accounts.map
          (fun a => (get_service_account (service_account_id a)).2)) := by
  induction accounts generalizing acc with
  | nil => simp [get_sa_loop]
  | cons a rest ih =>
      have ha : (get_service_account (service_account_id a)).1 = 200 :=
        h a (List.mem_cons_self a rest)
      simp only [get_sa_loop]
      rw [if_neg (by simp [ha])]
      rw [ih _ (fun x hx => h x (List.mem_cons_of_mem a hx))]
      simp

/-- Helper for C8: when some fetch along the list returns a non-200 status,
the loop raises `GoogleAPIError` whatever the accumulator holds. -/
theorem get_sa_loop_err (get_service_account : String → Nat × String)
    (accounts : List ServiceAccountEntry) (acc : List String)
    (h : ∃ a ∈ accounts, (get_service_account (service_account_id a)).1 ≠ 200) :
    ∃ msg, get_sa_loop get_service_account accounts acc
        = .error (.googleAPIError msg) := by
  induction accounts generalizing acc with
  | nil => simp at h
  | cons a rest ih =>
      by_cases ha : (get_service_account (service_account_id a)).1 = 200
      · rcases h with ⟨x, hx, hxs⟩
        rcases List.mem_cons.mp hx with hx | hx
        · exact absurd (hx ▸ hxs) (by simpa [hx] using ha)
        · simp only [get_sa_loop]
          rw [if_neg (by simp [ha])]
          exact ih _ ⟨x, hx, hxs⟩
      · refine ⟨"Unable to get service account "
            ++ service_account_id a ++ ".", ?_⟩
        simp only [get_sa_loop]
        rw [if_pos ha]

/-- C8: `do_get_service_account_from_google_project` raises
`GoogleAPIError` whenever the direct fetch of any enumerated service
account of the project returns a status other than 200, and when every
fetch returns 200 it returns the fetched JSON bodies — one per enumerated
service account, in order. -/
theorem do_get_service_account_correct
    (service_accounts : List ServiceAccountEntry)
    (get_service_account : String → Nat × String) :
    ((∃ a ∈ service_accounts,
        (get_service_account (service_account_id a)).1 ≠ 200) →
      ∃ msg, do_get_service_account_from_google_project service_accounts
          get_service_account = .error (.googleAPIError msg)) ∧
    ((∀ a ∈ service_accounts,
        (get_service_account (service_account_id a)).1 = 200) →
      do_get_service_account_from_google_project service_accounts
          get_service_account
        = .ok (service_accounts.map
            (fun a => (get_service_account (service_account_id a)).2))) := by
  constructor
  · intro h
    exact get_sa_loop_err get_service_account service_accounts [] h
  · intro h
    rw [do_get_service_account_from_google_project,
      get_sa_loop_all_ok get_service_account service_accounts [] h]
    simp

/-- C8 witness: a project with one service account whose fetch succeeds
yields exactly its JSON body. -/
theorem do_get_service_account_correct_witness :
    do_get_service_account_from_google_project
        [⟨some "projects/p/serviceAccounts/sa1"⟩]
        (fun _ => (200, "sa1-json")) = .ok ["sa1-json"] :=
  (do_get_service_account_correct [⟨some "projects/p/serviceAccounts/sa1"⟩]
      (fun _ => (200, "sa1-json"))).2 (by decide)
